import Mathlib

/-
Verification of the CyberRAGLLM workflow control-flow engine
(src/graph/control_flow.py and src/graph/graph_state.py) against its
natural-language specification.

The engine is shallowly embedded: the langgraph StateGraph built by
ControlFlowState.build_graph is a sequential, deterministic state machine
once the external capabilities (retriever, chat model, web-search tool)
are fixed, so each node becomes a Lean function from the graph state to a
partial state update, and the compiled graph becomes a function that
threads the state through the nodes following the conditional edges.
Python exceptions (json.loads failures, missing dict keys, calling lower
on a non-string) are modelled with Except.
-/

namespace CyberRAGLLM

/-- A langchain Document as the engine uses it: only the page_content
field is ever read or written by the nodes (metadata is carried along
opaquely and never inspected), so the embedding keeps just that field. -/
structure Document where
  page_content : String
deriving DecidableEq, Repr

/-- A JSON value sitting in a field of a structured model response.
The engine only ever compares such values with string literals or calls
lower on them, so the embedding distinguishes strings from everything
else; nonstr stands for any non-string JSON value. -/
inductive JVal where
  | str : String → JVal
  | nonstr : JVal
deriving DecidableEq, Repr

/-- Outcome of applying json.loads to the content of a structured model
response: either the content is not valid JSON (json.loads raises
JSONDecodeError) or it is a JSON object, given as a list of fields with
distinct keys. The model_formatted backend is asked for JSON objects;
non-object JSON values are outside this model. -/
inductive PResult where
  | malformed : PResult
  | obj : List (String × JVal) → PResult
deriving DecidableEq, Repr

/-- The Python exceptions the embedded code can raise. -/
inductive PyErr where
  | jsonDecodeError : PyErr
  | keyError : PyErr
  | attributeError : PyErr
  | graphError : PyErr
deriving DecidableEq, Repr

/-- Field lookup in a parsed JSON object (keys are distinct, so
first-match equals dict lookup). -/
def lookupField : List (String × JVal) → String → Option JVal
  | [], _ => none
  | (k, v) :: rest, key => if k = key then some v else lookupField rest key

/-- Embeds json.loads applied to a response content that the caller will
use as a dict: a decode failure raises JSONDecodeError. -/
def loads : PResult → Except PyErr (List (String × JVal))
  | .malformed => .error .jsonDecodeError
  | .obj fields => .ok fields

/-- Embeds indexing a parsed JSON object, d[key]: raises KeyError when
the key is absent. -/
def getItem (fields : List (String × JVal)) (key : String) : Except PyErr JVal :=
  match lookupField fields key with
  | some v => .ok v
  | none => .error .keyError

/-- ASCII lowering of one character, as Python str.lower() acts on the
ASCII grade strings the graders produce (A-Z mapped to a-z). -/
def lowerChar (c : Char) : Char :=
  if 65 ≤ c.toNat ∧ c.toNat ≤ 90 then Char.ofNat (c.toNat + 32) else c

/-- Embeds Python str.lower() on grade strings, defined structurally
over the character list so that concrete grades evaluate. -/
def lowerStr (s : String) : String := String.mk (s.data.map lowerChar)

/-- Embeds calling lower() on a JSON value: only strings have lower,
anything else raises AttributeError. -/
def jLower : JVal → Except PyErr String
  | .str s => .ok (lowerStr s)
  | .nonstr => .error .attributeError

/-- One web-search result entry as returned by the Tavily tool; only the
optional content field matters to the engine (entries without a content
field are skipped). -/
structure SearchEntry where
  content? : Option String
deriving DecidableEq, Repr

/-- The deterministic external capability backends of one
ControlFlowState instance: the vector-store retriever, the web-search
tool, the free-text chat model (llm_model.model) and the
JSON-formatted chat model followed by json.loads of its content
(llm_model.model_formatted). llmStructured takes the SystemMessage
content and the HumanMessage content of the invocation. -/
structure Caps where
  retriever : String → List Document
  webSearchTool : String → List SearchEntry
  llmFree : String → String
  llmStructured : String → String → PResult

/- The prompt templates of control_flow.py. Their literal text is inert
data: the engine never branches on it, it only feeds the formatted
strings to the model backends. The embedding therefore keeps each
template as a distinct marker string, and each TEMPLATE.format call as a
function of the values substituted into the template. -/

def ROUTER_INSTRUCTIONS : String := "ROUTER_INSTRUCTIONS"

def DOC_GRADER_INSTRUCTIONS : String := "DOC_GRADER_INSTRUCTIONS"

def HALLUCINATION_GRADER_INSTRUCTIONS : String := "HALLUCINATION_GRADER_INSTRUCTIONS"

def ANSWER_GRADER_INSTRUCTIONS : String := "ANSWER_GRADER_INSTRUCTIONS"

/-- Embeds RAG_PROMPT.format(context=..., question=...). -/
def RAG_PROMPT_format (context question : String) : String :=
  "RAG_PROMPT " ++ context ++ " " ++ question

/-- Embeds DOC_GRADER_PROMPT.format(document=..., question=...). -/
def DOC_GRADER_PROMPT_format (document question : String) : String :=
  "DOC_GRADER_PROMPT " ++ document ++ " " ++ question

/-- Embeds HALLUCINATION_GRADER_PROMPT.format(documents=..., generation=...). -/
def HALLUCINATION_GRADER_PROMPT_format (documents generation : String) : String :=
  "HALLUCINATION_GRADER_PROMPT " ++ documents ++ " " ++ generation

/-- Embeds ANSWER_GRADER_PROMPT.format(question=..., generation=...). -/
def ANSWER_GRADER_PROMPT_format (question generation : String) : String :=
  "ANSWER_GRADER_PROMPT " ++ question ++ " " ++ generation

/-- Embeds format_docs from control_flow.py. -/
def format_docs (docs : List Document) : String :=
  String.intercalate "\n\n" (docs.map fun d => d.page_content)

/-- The GraphState TypedDict of graph_state.py. Both callers (main.py
and server.py) populate every key when building the initial state, and
the loop_step channel is initialized to 0 by langgraph, so the state is
a full record here. loop_step and max_retries are the non-negative
integers of the spec data model. -/
structure GraphState where
  question : String
  generation : String
  web_search : String
  max_retries : Nat
  answers : Nat
  loop_step : Nat
  documents : List Document
deriving DecidableEq, Repr

/-- The partial update dict returned by a node: none means the key is
absent from the returned dict. -/
structure StateUpdate where
  question : Option String
  generation : Option String
  web_search : Option String
  max_retries : Option Nat
  answers : Option Nat
  loop_step : Option Nat
  documents : Option (List Document)
deriving DecidableEq, Repr

/-- How langgraph merges a node update into the state: every channel of
GraphState is a last-value channel except loop_step, which
graph_state.py annotates with operator.add, so a loop_step update is
added to the current value instead of replacing it. -/
def applyUpdate (s : GraphState) (u : StateUpdate) : GraphState :=
  { question := u.question.getD s.question
    generation := u.generation.getD s.generation
    web_search := u.web_search.getD s.web_search
    max_retries := u.max_retries.getD s.max_retries
    answers := u.answers.getD s.answers
    loop_step := s.loop_step + u.loop_step.getD 0
    documents := u.documents.getD s.documents }

/-- The retrieve node, ControlFlowState.retrieve_documents: replaces
documents with a fresh retrieval for the question. -/
def retrieve_documents (caps : Caps) (state : GraphState) : StateUpdate :=
  { question := none
    generation := none
    web_search := none
    max_retries := none
    answers := none
    loop_step := none
    documents := some (caps.retriever state.question) }

/-- The generate node, ControlFlowState.generate_answer: formats the RAG
prompt from the accumulated documents and the question, invokes the
free-text model, and returns the generation together with a loop_step
update of loop_step + 1 (which the operator.add channel then adds to the
current loop_step). -/
def generate_answer (caps : Caps) (state : GraphState) : StateUpdate :=
  let docs_txt := format_docs state.documents
  let rag_prompt_formatted := RAG_PROMPT_format docs_txt state.question
  { question := none
    generation := some (caps.llmFree rag_prompt_formatted)
    web_search := none
    max_retries := none
    answers := none
    loop_step := some (state.loop_step + 1)
    documents := none }

/-- The per-document scoring loop inside ControlFlowState.grade_documents,
carrying the filtered_docs accumulator and the web_search flag. Each
document is graded by the formatted model; the grade is
json.loads(result.content)[binary_score], lowercased; documents grading
to yes are appended to filtered_docs, any other document is dropped and
flips the flag to Yes. -/
def gradeDocsGo (caps : Caps) (question : String) :
    List Document → List Document → String → Except PyErr (List Document × String)
  | [], filtered_docs, web_search => .ok (filtered_docs, web_search)
  | d :: rest, filtered_docs, web_search =>
    match loads (caps.llmStructured DOC_GRADER_INSTRUCTIONS
        (DOC_GRADER_PROMPT_format d.page_content question)) with
    | .error e => .error e
    | .ok fields =>
      match getItem fields "binary_score" with
      | .error e => .error e
      | .ok grade =>
        match jLower grade with
        | .error e => .error e
        | .ok gl =>
          if gl = "yes" then gradeDocsGo caps question rest (filtered_docs ++ [d]) web_search
          else gradeDocsGo caps question rest filtered_docs "Yes"

/-- The grade-documents node, ControlFlowState.grade_documents: scores
each document, keeps the relevant ones and sets the web_search flag. -/
def grade_documents (caps : Caps) (state : GraphState) : Except PyErr StateUpdate :=
  match gradeDocsGo caps state.question state.documents [] "No" with
  | .error e => .error e
  | .ok (filtered_docs, web_search) =>
    .ok { question := none
          generation := none
          web_search := some web_search
          max_retries := none
          answers := none
          loop_step := none
          documents := some filtered_docs }

/-- The web-search node, ControlFlowState.web_search: joins the content
fields of the search results (entries without a content field are
skipped) into one synthetic Document appended to the current documents
list. -/
def web_search (caps : Caps) (state : GraphState) : StateUpdate :=
  let docs := caps.webSearchTool state.question
  let web_results := String.intercalate "\n" (docs.filterMap fun d => d.content?)
  { question := none
    generation := none
    web_search := none
    max_retries := none
    answers := none
    loop_step := none
    documents := some (state.documents ++ [{ page_content := web_results }]) }

/-- The conditional entry point, ControlFlowState.route_question: parses
the router response with json.loads (no exception handler, so a decode
failure propagates), then routes on the datasource field, falling
through to websearch when the key is missing or carries any other
value. -/
def route_question (caps : Caps) (state : GraphState) : Except PyErr String :=
  match loads (caps.llmStructured ROUTER_INSTRUCTIONS state.question) with
  | .error e => .error e
  | .ok json_content =>
    match lookupField json_content "datasource" with
    | some source =>
      if source = JVal.str "websearch" then .ok "websearch"
      else if source = JVal.str "vectorstore" then .ok "vectorstore"
      else .ok "websearch"
    | none => .ok "websearch"

/-- The conditional edge after grading documents,
ControlFlowState.decide_to_generate. -/
def decide_to_generate (state : GraphState) : String :=
  if state.web_search = "Yes" then "websearch" else "generate"

/-- The conditional edge after generating,
ControlFlowState.grade_generation_v_documents_and_question: the
groundedness grade and (only if it is exactly yes) the usefulness grade
are read with json.loads(result.content)[binary_score] with no exception
handler, then compared with the exact string yes; failing grades retry
while loop_step is at most max_retries (the local variable
max_retries = state.get("max_retries", 3) is inlined here; both callers
always populate the key, so the default never fires). -/
def grade_generation_v_documents_and_question (caps : Caps) (state : GraphState) :
    Except PyErr String :=
  match loads (caps.llmStructured HALLUCINATION_GRADER_INSTRUCTIONS
      (HALLUCINATION_GRADER_PROMPT_format (format_docs state.documents) state.generation)) with
  | .error e => .error e
  | .ok fields =>
    match getItem fields "binary_score" with
    | .error e => .error e
    | .ok grade =>
      if grade = JVal.str "yes" then
        match loads (caps.llmStructured ANSWER_GRADER_INSTRUCTIONS
            (ANSWER_GRADER_PROMPT_format state.question state.generation)) with
        | .error e => .error e
        | .ok fields2 =>
          match getItem fields2 "binary_score" with
          | .error e => .error e
          | .ok grade2 =>
            if grade2 = JVal.str "yes" then .ok "useful"
            else if state.loop_step ≤ state.max_retries then .ok "not useful"
            else .ok "max retries"
      else if state.loop_step ≤ state.max_retries then .ok "not supported"
      else .ok "max retries"

/-- The generate-and-grade loop of the compiled graph: run the generate
node, merge its update, evaluate grade_generation_v_documents_and_question
on the merged state and follow the conditional edges of build_graph
(not supported goes back to generate, not useful goes to websearch and
then, by the unconditional edge, back to generate; useful and
max retries end the run). count counts the executions of the generate
node. fuel bounds the recursion; graph_invoke passes enough fuel for the
loop to always finish (genLoop_isSome), so the none case is
unreachable there. -/
def genLoop (caps : Caps) : Nat → GraphState → Nat → Option (Except PyErr (GraphState × Nat))
  | 0, _, _ => none
  | fuel + 1, state, count =>
    let s1 := applyUpdate state (generate_answer caps state)
    match grade_generation_v_documents_and_question caps s1 with
    | .error e => some (.error e)
    | .ok decision =>
      if decision = "not supported" then genLoop caps fuel s1 (count + 1)
      else if decision = "useful" then some (.ok (s1, count + 1))
      else if decision = "not useful" then
        genLoop caps fuel (applyUpdate s1 (web_search caps s1)) (count + 1)
      else if decision = "max retries" then some (.ok (s1, count + 1))
      else some (.error .graphError)

/-- Executes the compiled graph built by ControlFlowState.build_graph on
an initial state, as graph.invoke does: conditional entry through
route_question, then either the websearch or the
retrieve / grade_documents path into the generate-and-grade loop.
Returns the final state together with the number of generate-node
executions; errors are Python exceptions escaping from a node or edge
function. -/
def graph_invoke (caps : Caps) (s0 : GraphState) : Option (Except PyErr (GraphState × Nat)) :=
  match route_question caps s0 with
  | .error e => some (.error e)
  | .ok route =>
    if route = "vectorstore" then
      let s1 := applyUpdate s0 (retrieve_documents caps s0)
      match grade_documents caps s1 with
      | .error e => some (.error e)
      | .ok u =>
        let s2 := applyUpdate s1 u
        if decide_to_generate s2 = "websearch" then
          genLoop caps (s2.max_retries + 2) (applyUpdate s2 (web_search caps s2)) 0
        else
          genLoop caps (s2.max_retries + 2) s2 0
    else
      genLoop caps (s0.max_retries + 2) (applyUpdate s0 (web_search caps s0)) 0

/- Small merge equations used throughout: how the state looks after each
node update is applied. They are definitional. -/

theorem applyUpdate_retrieve (caps : Caps) (s : GraphState) :
    applyUpdate s (retrieve_documents caps s) =
      { s with documents := caps.retriever s.question } := rfl

theorem applyUpdate_generate (caps : Caps) (s : GraphState) :
    applyUpdate s (generate_answer caps s) =
      { s with
        generation := caps.llmFree (RAG_PROMPT_format (format_docs s.documents) s.question)
        loop_step := s.loop_step + (s.loop_step + 1) } := rfl

theorem applyUpdate_web_search (caps : Caps) (s : GraphState) :
    applyUpdate s (web_search caps s) =
      { s with documents := s.documents ++
          [{ page_content := String.intercalate "\n"
              ((caps.webSearchTool s.question).filterMap fun d => d.content?) }] } := rfl

/-- Exhaustive case analysis of the post-generate conditional edge: it
either ends the run (useful or max retries), or asks for another
generate pass, which it does only when the loop_step of the graded state
is at most its max_retries, or propagates a Python exception. -/
theorem grade_generation_cases (caps : Caps) (s : GraphState) :
    grade_generation_v_documents_and_question caps s = .ok "useful" ∨
    grade_generation_v_documents_and_question caps s = .ok "max retries" ∨
    ((grade_generation_v_documents_and_question caps s = .ok "not useful" ∨
      grade_generation_v_documents_and_question caps s = .ok "not supported") ∧
      s.loop_step ≤ s.max_retries) ∨
    (∃ e, grade_generation_v_documents_and_question caps s = .error e) := by
  unfold grade_generation_v_documents_and_question
  repeat' split
  all_goals first
    | exact Or.inl rfl
    | exact Or.inr (Or.inl rfl)
    | exact Or.inr (Or.inr (Or.inr ⟨_, rfl⟩))
    | exact Or.inr (Or.inr (Or.inl ⟨Or.inl rfl, by assumption⟩))
    | exact Or.inr (Or.inr (Or.inl ⟨Or.inr rfl, by assumption⟩))

/-- The fuel passed by graph_invoke is always enough: every generate
pass strictly increases loop_step, and the conditional edge asks for
another pass only while loop_step is at most max_retries, so the loop
always ends on its own. Hence the none case of genLoop is unreachable
from graph_invoke. -/
theorem genLoop_isSome (caps : Caps) :
    ∀ (fuel : Nat) (s : GraphState) (count : Nat),
      s.max_retries + 1 ≤ fuel + s.loop_step → 1 ≤ fuel →
      (genLoop caps fuel s count).isSome := by
  intro fuel
  induction fuel with
  | zero => intro s count _ h1; omega
  | succ fuel ih =>
    intro s count h _
    simp only [genLoop]
    rcases grade_generation_cases caps (applyUpdate s (generate_answer caps s)) with
      hu | hm | ⟨hd, hle⟩ | ⟨e, he⟩
    · rw [hu]; simp
    · rw [hm]; simp
    · rw [applyUpdate_generate] at hle
      simp only [applyUpdate_generate] at hle
      rcases hd with hd | hd
      · rw [hd]
        simp only [reduceIte]
        have hws : (applyUpdate (applyUpdate s (generate_answer caps s))
            (web_search caps (applyUpdate s (generate_answer caps s)))).loop_step
            = s.loop_step + (s.loop_step + 1) := rfl
        have hwm : (applyUpdate (applyUpdate s (generate_answer caps s))
            (web_search caps (applyUpdate s (generate_answer caps s)))).max_retries
            = s.max_retries := rfl
        apply ih
        · rw [hws, hwm]; omega
        · omega
      · rw [hd]
        simp only [reduceIte]
        apply ih
        · have h1 : (applyUpdate s (generate_answer caps s)).loop_step
              = s.loop_step + (s.loop_step + 1) := rfl
          have h2 : (applyUpdate s (generate_answer caps s)).max_retries
              = s.max_retries := rfl
          rw [h1, h2]; omega
        · omega
    · rw [he]; simp

/-- Indexing a one-field object with its key yields the field value. -/
theorem getItem_singleton (k : String) (v : JVal) : getItem [(k, v)] k = .ok v := by
  simp [getItem, lookupField]

/-- Keys never set by grade_documents: the update it returns carries only
documents and web_search. -/
theorem grade_documents_update_keys (caps : Caps) (s : GraphState) (u : StateUpdate)
    (h : grade_documents caps s = .ok u) :
    u.question = none ∧ u.generation = none ∧ u.max_retries = none ∧
    u.answers = none ∧ u.loop_step = none := by
  unfold grade_documents at h
  rcases hg : gradeDocsGo caps s.question s.documents [] "No" with e | p
  · rw [hg] at h; cases h
  · rw [hg] at h
    cases p
    cases h
    exact ⟨rfl, rfl, rfl, rfl, rfl⟩

/-- The compiled graph always reaches a terminal outcome: the fuel
chosen in graph_invoke suffices. -/
theorem graph_invoke_isSome (caps : Caps) (s0 : GraphState) :
    (graph_invoke caps s0).isSome := by
  unfold graph_invoke
  rcases route_question caps s0 with e | route
  · simp
  · simp only []
    split
    · rcases hgd : grade_documents caps (applyUpdate s0 (retrieve_documents caps s0)) with e | u
      · simp
      · simp only []
        split
        · apply genLoop_isSome
          · have hmr : (applyUpdate (applyUpdate (applyUpdate s0 (retrieve_documents caps s0)) u)
                (web_search caps (applyUpdate (applyUpdate s0 (retrieve_documents caps s0)) u))).max_retries
                = (applyUpdate (applyUpdate s0 (retrieve_documents caps s0)) u).max_retries := rfl
            rw [hmr]
            omega
          · omega
        · apply genLoop_isSome
          · omega
          · omega
    · apply genLoop_isSome
      · have hmr : (applyUpdate s0 (web_search caps s0)).max_retries = s0.max_retries := rfl
        rw [hmr]
        omega
      · omega

/-- Closed form of the per-document scoring loop: when the grader
response for each document parses to a string grade g d, the loop
returns the accumulator followed by the documents whose lowercased
grade is yes, in their original order, and flips the flag to Yes
exactly when some document was dropped. -/
theorem gradeDocsGo_spec (caps : Caps) (question : String) (g : Document → String)
    (docs : List Document)
    (hg : ∀ d ∈ docs, caps.llmStructured DOC_GRADER_INSTRUCTIONS
        (DOC_GRADER_PROMPT_format d.page_content question)
        = PResult.obj [("binary_score", JVal.str (g d))]) :
    ∀ acc flag, gradeDocsGo caps question docs acc flag =
      .ok (acc ++ docs.filter (fun d => lowerStr (g d) == "yes"),
           if docs.all (fun d => lowerStr (g d) == "yes") then flag else "Yes") := by
  induction docs with
  | nil => intro acc flag; simp [gradeDocsGo]
  | cons d rest ih =>
    intro acc flag
    have hd := hg d (List.mem_cons_self d rest)
    have hrest := fun x hx => hg x (List.mem_cons_of_mem d hx)
    unfold gradeDocsGo
    rw [hd]
    simp only [loads, getItem_singleton, jLower]
    by_cases hy : lowerStr (g d) = "yes"
    · rw [if_pos hy, ih hrest (acc ++ [d]) flag]
      simp [List.filter_cons, List.all_cons, hy]
    · rw [if_neg hy, ih hrest acc "Yes"]
      simp [List.filter_cons, List.all_cons, hy]

/- Concrete deterministic backends and initial states used to evaluate
the engine on explicit inputs. capsRetry routes to websearch and always
fails the groundedness grade, so the run exercises the retry loop up to
exhaustion. -/

def capsRetry : Caps where
  retriever := fun _ => []
  webSearchTool := fun _ => [{ content? := some "w" }]
  llmFree := fun _ => "g"
  llmStructured := fun sys _ =>
    if sys = ROUTER_INSTRUCTIONS then .obj [("datasource", .str "websearch")]
    else .obj [("binary_score", .str "no")]

/-- The initial state both callers build: question and max_retries from
the user, empty documents, web_search No, loop_step 0. -/
def initRetry : GraphState where
  question := "q"
  generation := ""
  web_search := "No"
  max_retries := 3
  answers := 0
  loop_step := 0
  documents := []

/-- The final state of running capsRetry on initRetry. -/
def finalRetry : GraphState where
  question := "q"
  generation := "g"
  web_search := "No"
  max_retries := 3
  answers := 0
  loop_step := 7
  documents := [{ page_content := "w" }]

/-- C1: the claim says every generate execution increases loop_step by
exactly 1, so the final loop_step equals the number of generate
executions. The code contradicts this: generate_answer returns the
update loop_step + 1 read from the current state, and the operator.add
channel of graph_state.py adds that update to the current value, so each
execution maps loop_step to 2 * loop_step + 1. On the failing input
below (max_retries 3, groundedness always no) the generate node runs 3
times yet the final loop_step is 7, not 3. -/
theorem loop_step_not_incremented_by_one :
    (graph_invoke capsRetry initRetry).map (Except.map fun p => (p.1.loop_step, p.2))
      = some (.ok (7, 3)) ∧ (7 : Nat) ≠ 3 :=
  ⟨rfl, by decide⟩

/-- C2: the claim says the final loop_step is at most max_retries + 1.
On the same failing input the run ends with loop_step 7 while
max_retries + 1 = 4, because each generate execution adds
loop_step + 1 to the loop_step channel instead of replacing it. -/
theorem final_loop_step_exceeds_retry_bound :
    (graph_invoke capsRetry initRetry).map (Except.map fun p => p.1.loop_step)
      = some (.ok 7) ∧ initRetry.max_retries + 1 < 7 :=
  ⟨rfl, by decide⟩

/-- Backends whose structured responses are not valid JSON. -/
def capsInvalidJson : Caps where
  retriever := fun _ => []
  webSearchTool := fun _ => []
  llmFree := fun _ => ""
  llmStructured := fun _ _ => .malformed

/-- C3 counterexample: a router response that is not valid JSON makes
route_question raise json.JSONDecodeError to the caller (there is no
exception handler around json.loads), refuting the claim that the
router never raises on malformed model output. -/
theorem route_question_raises_on_invalid_json :
    route_question capsInvalidJson initRetry = .error .jsonDecodeError := rfl

/-- C3 (amended): for every router response that parses as a structured
JSON object, route_question recovers locally and resolves to one of the
two valid routes; only a response that is not valid JSON raises. -/
theorem route_question_recovers_on_parsed_object (caps : Caps) (s : GraphState)
    (fields : List (String × JVal))
    (h : caps.llmStructured ROUTER_INSTRUCTIONS s.question = PResult.obj fields) :
    route_question caps s = .ok "websearch" ∨ route_question caps s = .ok "vectorstore" := by
  unfold route_question
  rw [h]
  simp only [loads]
  rcases lookupField fields "datasource" with _ | source
  · exact Or.inl rfl
  · dsimp only
    by_cases h1 : source = JVal.str "websearch"
    · rw [if_pos h1]; exact Or.inl rfl
    · rw [if_neg h1]
      by_cases h2 : source = JVal.str "vectorstore"
      · rw [if_pos h2]; exact Or.inr rfl
      · rw [if_neg h2]; exact Or.inl rfl

/-- Backends whose router response is an empty JSON object. -/
def capsRouterEmpty : Caps where
  retriever := fun _ => []
  webSearchTool := fun _ => []
  llmFree := fun _ => ""
  llmStructured := fun _ _ => .obj []

/-- Witness for the amended C3 at a concrete parsed-object response. -/
theorem route_question_recovers_on_parsed_object_witness :
    route_question capsRouterEmpty initRetry = .ok "websearch" ∨
    route_question capsRouterEmpty initRetry = .ok "vectorstore" :=
  route_question_recovers_on_parsed_object capsRouterEmpty initRetry [] rfl

/-- C4: for every structured router response that lacks a datasource key
or whose datasource value is anything other than the labels websearch
and vectorstore, the resulting route is websearch; in particular the
router never routes to vectorstore on ambiguous input. -/
theorem route_question_defaults_websearch_on_ambiguous (caps : Caps) (s : GraphState)
    (fields : List (String × JVal))
    (hresp : caps.llmStructured ROUTER_INSTRUCTIONS s.question = PResult.obj fields)
    (hamb : ∀ v, lookupField fields "datasource" = some v →
      v ≠ JVal.str "websearch" ∧ v ≠ JVal.str "vectorstore") :
    route_question caps s = .ok "websearch" := by
  unfold route_question
  rw [hresp]
  simp only [loads]
  rcases hf : lookupField fields "datasource" with _ | source
  · rfl
  · obtain ⟨h1, h2⟩ := hamb source hf
    dsimp only
    rw [if_neg h1, if_neg h2]

/-- Backends whose router response carries an unrecognized datasource
label, as in spec scenario D. -/
def capsRouterBanana : Caps where
  retriever := fun _ => []
  webSearchTool := fun _ => []
  llmFree := fun _ => ""
  llmStructured := fun _ _ => .obj [("datasource", .str "banana")]

/-- Witness for C4 at the concrete ambiguous response of scenario D. -/
theorem route_question_defaults_websearch_on_ambiguous_witness :
    route_question capsRouterBanana initRetry = .ok "websearch" :=
  route_question_defaults_websearch_on_ambiguous capsRouterBanana initRetry
    [("datasource", JVal.str "banana")] rfl
    (by
      intro v hv
      rw [show lookupField [("datasource", JVal.str "banana")] "datasource"
          = some (JVal.str "banana") from rfl] at hv
      cases hv
      exact ⟨by decide, by decide⟩)

/-- C6: the web-search node appends exactly one synthetic Document,
whose content is the newline-join of the content fields of exactly those
result entries that have one, to the existing documents list, so each
visit grows documents by exactly 1 and two visits strictly grow it. -/
theorem web_search_appends_one_synthetic_document (caps : Caps) (s : GraphState) :
    (applyUpdate s (web_search caps s)).documents =
      s.documents ++ [Document.mk (String.intercalate "\n"
          ((caps.webSearchTool s.question).filterMap fun d => d.content?))] ∧
    (applyUpdate s (web_search caps s)).documents.length = s.documents.length + 1 ∧
    s.documents.length <
      (applyUpdate (applyUpdate s (web_search caps s))
        (web_search caps (applyUpdate s (web_search caps s)))).documents.length := by
  refine ⟨rfl, ?_, ?_⟩ <;> simp [applyUpdate_web_search]

/-- C5: GradeDocuments keeps exactly the documents graded yes, in their
original relative order (it is a filter of the input list), and sets
web_search to Yes if and only if at least one input document was
dropped, else No. The grader backend is assumed to answer each
per-document prompt with a parsed object carrying the string grade
g d. -/
theorem grade_documents_keeps_yes_in_order (caps : Caps) (s : GraphState)
    (g : Document → String)
    (hg : ∀ d ∈ s.documents, caps.llmStructured DOC_GRADER_INSTRUCTIONS
        (DOC_GRADER_PROMPT_format d.page_content s.question)
        = PResult.obj [("binary_score", JVal.str (g d))]) :
    grade_documents caps s = .ok
      { question := none
        generation := none
        web_search := some (if s.documents.all (fun d => lowerStr (g d) == "yes")
          then "No" else "Yes")
        max_retries := none
        answers := none
        loop_step := none
        documents := some (s.documents.filter fun d => lowerStr (g d) == "yes") } ∧
    ((if s.documents.all (fun d => lowerStr (g d) == "yes") then "No" else "Yes") = "Yes"
      ↔ ∃ d ∈ s.documents, (lowerStr (g d) == "yes") = false) := by
  constructor
  · unfold grade_documents
    rw [gradeDocsGo_spec caps s.question g s.documents hg [] "No"]
    rfl
  · by_cases hall : s.documents.all (fun d => lowerStr (g d) == "yes")
    · rw [if_pos hall]
      rw [List.all_eq_true] at hall
      constructor
      · intro hcontra
        exact absurd hcontra (by decide)
      · rintro ⟨d, hd, hf⟩
        rw [hall d hd] at hf
        exact Bool.noConfusion hf
    · rw [if_neg hall]
      constructor
      · intro _
        rw [List.all_eq_true] at hall
        push_neg at hall
        obtain ⟨d, hd, hf⟩ := hall
        exact ⟨d, hd, by simpa using hf⟩
      · intro _
        rfl

/-- Witness inputs for the document-grading claims: two retrieved
documents, the first graded yes and the second graded no. -/
def capsDocGrade : Caps where
  retriever := fun _ => []
  webSearchTool := fun _ => []
  llmFree := fun _ => ""
  llmStructured := fun _ up =>
    if up = DOC_GRADER_PROMPT_format "a" "q" then .obj [("binary_score", JVal.str "yes")]
    else .obj [("binary_score", JVal.str "no")]

def sDocGrade : GraphState where
  question := "q"
  generation := ""
  web_search := "No"
  max_retries := 3
  answers := 0
  loop_step := 0
  documents := [{ page_content := "a" }, { page_content := "b" }]

def gDocGrade : Document → String :=
  fun d => if d.page_content = "a" then "yes" else "no"

/-- Witness for C5: of the two graded documents only the first survives,
in place, and the drop sets web_search to Yes. -/
theorem grade_documents_keeps_yes_in_order_witness :
    grade_documents capsDocGrade sDocGrade = .ok
      { question := none
        generation := none
        web_search := some "Yes"
        max_retries := none
        answers := none
        loop_step := none
        documents := some [{ page_content := "a" }] } :=
  ((grade_documents_keeps_yes_in_order capsDocGrade sDocGrade gDocGrade
    (by decide)).1).trans (by rfl)

/-- C7: a groundedness- or usefulness-grader response whose content is
not valid JSON or lacks the binary_score key makes
grade_generation_v_documents_and_question raise the corresponding
Python exception to the caller: there is no handler and no default
score, so the failure is fatal for the run. -/
theorem grader_parse_failure_is_fatal (caps : Caps) (s : GraphState) (e : PyErr) :
    ((loads (caps.llmStructured HALLUCINATION_GRADER_INSTRUCTIONS
        (HALLUCINATION_GRADER_PROMPT_format (format_docs s.documents) s.generation))).bind
        (fun fields => getItem fields "binary_score") = .error e →
      grade_generation_v_documents_and_question caps s = .error e) ∧
    ((loads (caps.llmStructured HALLUCINATION_GRADER_INSTRUCTIONS
        (HALLUCINATION_GRADER_PROMPT_format (format_docs s.documents) s.generation))).bind
        (fun fields => getItem fields "binary_score") = .ok (JVal.str "yes") →
     (loads (caps.llmStructured ANSWER_GRADER_INSTRUCTIONS
        (ANSWER_GRADER_PROMPT_format s.question s.generation))).bind
        (fun fields => getItem fields "binary_score") = .error e →
      grade_generation_v_documents_and_question caps s = .error e) := by
  constructor
  · intro h
    unfold grade_generation_v_documents_and_question
    rcases hl : loads (caps.llmStructured HALLUCINATION_GRADER_INSTRUCTIONS
        (HALLUCINATION_GRADER_PROMPT_format (format_docs s.documents) s.generation))
        with e1 | fields
    · rw [hl] at h
      dsimp only [Except.bind] at h
      cases h
      rfl
    · rw [hl] at h
      dsimp only [Except.bind] at h
      dsimp only
      rw [h]
  · intro h1 h2
    unfold grade_generation_v_documents_and_question
    rcases hl : loads (caps.llmStructured HALLUCINATION_GRADER_INSTRUCTIONS
        (HALLUCINATION_GRADER_PROMPT_format (format_docs s.documents) s.generation))
        with e1 | fields
    · rw [hl] at h1
      dsimp only [Except.bind] at h1
      exact Except.noConfusion h1
    · rw [hl] at h1
      dsimp only [Except.bind] at h1
      dsimp only
      rw [h1]
      dsimp only
      rw [if_pos rfl]
      rcases hl2 : loads (caps.llmStructured ANSWER_GRADER_INSTRUCTIONS
          (ANSWER_GRADER_PROMPT_format s.question s.generation)) with e2 | fields2
      · rw [hl2] at h2
        dsimp only [Except.bind] at h2
        cases h2
        rfl
      · rw [hl2] at h2
        dsimp only [Except.bind] at h2
        dsimp only
        rw [h2]

/-- Witness for C7: a groundedness-grader response that is not valid
JSON aborts the grading edge with JSONDecodeError. -/
theorem grader_parse_failure_is_fatal_witness :
    grade_generation_v_documents_and_question capsInvalidJson initRetry
      = .error .jsonDecodeError :=
  (grader_parse_failure_is_fatal capsInvalidJson initRetry .jsonDecodeError).1 rfl

/-- Through the generate-and-grade loop, question and max_retries never
change: no update merged there carries either key. -/
theorem genLoop_preserves_question_max_retries (caps : Caps) :
    ∀ (fuel : Nat) (s : GraphState) (count : Nat) (sF : GraphState) (n : Nat),
      genLoop caps fuel s count = some (.ok (sF, n)) →
      sF.question = s.question ∧ sF.max_retries = s.max_retries := by
  intro fuel
  induction fuel with
  | zero => intro s count sF n h; simp [genLoop] at h
  | succ fuel ih =>
    intro s count sF n h
    simp only [genLoop] at h
    rcases hg : grade_generation_v_documents_and_question caps
        (applyUpdate s (generate_answer caps s)) with e | decision
    · rw [hg] at h; simp at h
    · rw [hg] at h
      dsimp only at h
      by_cases h1 : decision = "not supported"
      · rw [if_pos h1] at h
        have hp := ih _ _ _ _ h
        exact hp
      · rw [if_neg h1] at h
        by_cases h2 : decision = "useful"
        · rw [if_pos h2] at h
          simp only [Option.some.injEq, Except.ok.injEq, Prod.mk.injEq] at h
          obtain ⟨rfl, -⟩ := h
          exact ⟨rfl, rfl⟩
        · rw [if_neg h2] at h
          by_cases h3 : decision = "not useful"
          · rw [if_pos h3] at h
            have hp := ih _ _ _ _ h
            exact hp
          · rw [if_neg h3] at h
            by_cases h4 : decision = "max retries"
            · rw [if_pos h4] at h
              simp only [Option.some.injEq, Except.ok.injEq, Prod.mk.injEq] at h
              obtain ⟨rfl, -⟩ := h
              exact ⟨rfl, rfl⟩
            · rw [if_neg h4] at h
              simp at h

/-- C8: no node update ever carries the question or max_retries keys,
so whenever a run reaches a terminal state, both fields of the final
state equal their initial values. -/
theorem question_and_max_retries_immutable (caps : Caps) (s0 sF : GraphState) (n : Nat)
    (h : graph_invoke caps s0 = some (Except.ok (sF, n))) :
    ((retrieve_documents caps s0).question = none ∧
      (retrieve_documents caps s0).max_retries = none) ∧
    ((generate_answer caps s0).question = none ∧
      (generate_answer caps s0).max_retries = none) ∧
    ((web_search caps s0).question = none ∧
      (web_search caps s0).max_retries = none) ∧
    (∀ u, grade_documents caps s0 = .ok u → u.question = none ∧ u.max_retries = none) ∧
    (sF.question = s0.question ∧ sF.max_retries = s0.max_retries) := by
  refine ⟨⟨rfl, rfl⟩, ⟨rfl, rfl⟩, ⟨rfl, rfl⟩, ?_, ?_⟩
  · intro u hu
    obtain ⟨hq, -, hm, -, -⟩ := grade_documents_update_keys caps s0 u hu
    exact ⟨hq, hm⟩
  · unfold graph_invoke at h
    rcases hr : route_question caps s0 with e | route
    · rw [hr] at h; simp at h
    · rw [hr] at h
      dsimp only at h
      by_cases hv : route = "vectorstore"
      · rw [if_pos hv] at h
        rcases hgd : grade_documents caps (applyUpdate s0 (retrieve_documents caps s0))
            with e | u
        · rw [hgd] at h; simp at h
        · rw [hgd] at h
          dsimp only at h
          obtain ⟨hq, -, hm, -, -⟩ := grade_documents_update_keys caps _ u hgd
          have hs2q : (applyUpdate (applyUpdate s0 (retrieve_documents caps s0)) u).question
              = s0.question := by
            simp [applyUpdate, hq, retrieve_documents]
          have hs2m : (applyUpdate (applyUpdate s0 (retrieve_documents caps s0)) u).max_retries
              = s0.max_retries := by
            simp [applyUpdate, hm, retrieve_documents]
          by_cases hd : decide_to_generate
              (applyUpdate (applyUpdate s0 (retrieve_documents caps s0)) u) = "websearch"
          · rw [if_pos hd] at h
            have hp := genLoop_preserves_question_max_retries caps _ _ _ _ _ h
            exact ⟨hp.1.trans hs2q, hp.2.trans hs2m⟩
          · rw [if_neg hd] at h
            have hp := genLoop_preserves_question_max_retries caps _ _ _ _ _ h
            exact ⟨hp.1.trans hs2q, hp.2.trans hs2m⟩
      · rw [if_neg hv] at h
        have hp := genLoop_preserves_question_max_retries caps _ _ _ _ _ h
        exact ⟨hp.1, hp.2⟩

/-- Witness for C8 on a concrete exhausted run: the final question and
max_retries equal the initial ones. -/
theorem question_and_max_retries_immutable_witness :
    finalRetry.question = initRetry.question ∧
    finalRetry.max_retries = initRetry.max_retries :=
  (question_and_max_retries_immutable capsRetry initRetry finalRetry 3 rfl).2.2.2.2

/-- C9: the compiled workflow is deterministic: with the same
deterministic capability backends and the same initial state, any two
terminal runs agree on generation, loop_step, web_search, documents and
on the number of generate executions. -/
theorem engine_deterministic (caps : Caps) (s0 s1 s2 : GraphState) (n1 n2 : Nat)
    (h1 : graph_invoke caps s0 = some (Except.ok (s1, n1)))
    (h2 : graph_invoke caps s0 = some (Except.ok (s2, n2))) :
    s1.generation = s2.generation ∧ s1.loop_step = s2.loop_step ∧
    s1.web_search = s2.web_search ∧ s1.documents = s2.documents ∧ n1 = n2 := by
  have h := h1.symm.trans h2
  simp only [Option.some.injEq, Except.ok.injEq, Prod.mk.injEq] at h
  obtain ⟨rfl, rfl⟩ := h
  exact ⟨rfl, rfl, rfl, rfl, rfl⟩

/-- Witness for C9: two identical concrete runs agree on all observed
fields. -/
theorem engine_deterministic_witness :
    finalRetry.generation = finalRetry.generation ∧
    finalRetry.loop_step = finalRetry.loop_step ∧
    finalRetry.web_search = finalRetry.web_search ∧
    finalRetry.documents = finalRetry.documents ∧ (3 : Nat) = 3 :=
  engine_deterministic capsRetry initRetry finalRetry finalRetry 3 3 rfl rfl

/-- C10: the two grading layers differ in string strictness. A document
is kept exactly when its grade lowers to yes, so the grades Yes and YES
count as relevant there and any other value drops the document and sets
web_search to Yes; the post-generate edge instead compares the
groundedness and usefulness grades with the exact lowercase string yes,
so a grade of Yes from the groundedness grader is a failing grade
(retry or exhaustion, never the useful outcome), and likewise a Yes from
the usefulness grader after an exact-yes groundedness grade. -/
theorem grading_strictness_differs (caps : Caps) (s t : GraphState) (gs : String)
    (d : Document)
    (hdocs : s.documents = [d])
    (hdoc : caps.llmStructured DOC_GRADER_INSTRUCTIONS
        (DOC_GRADER_PROMPT_format d.page_content s.question)
        = PResult.obj [("binary_score", JVal.str gs)])
    (hhalS : caps.llmStructured HALLUCINATION_GRADER_INSTRUCTIONS
        (HALLUCINATION_GRADER_PROMPT_format (format_docs s.documents) s.generation)
        = PResult.obj [("binary_score", JVal.str "Yes")])
    (hhalT : caps.llmStructured HALLUCINATION_GRADER_INSTRUCTIONS
        (HALLUCINATION_GRADER_PROMPT_format (format_docs t.documents) t.generation)
        = PResult.obj [("binary_score", JVal.str "yes")])
    (hansT : caps.llmStructured ANSWER_GRADER_INSTRUCTIONS
        (ANSWER_GRADER_PROMPT_format t.question t.generation)
        = PResult.obj [("binary_score", JVal.str "Yes")]) :
    grade_documents caps s = .ok
      { question := none
        generation := none
        web_search := some (if lowerStr gs == "yes" then "No" else "Yes")
        max_retries := none
        answers := none
        loop_step := none
        documents := some (if lowerStr gs == "yes" then [d] else []) } ∧
    grade_generation_v_documents_and_question caps s
      = .ok (if s.loop_step ≤ s.max_retries then "not supported" else "max retries") ∧
    grade_generation_v_documents_and_question caps t
      = .ok (if t.loop_step ≤ t.max_retries then "not useful" else "max retries") := by
  refine ⟨?_, ?_, ?_⟩
  · unfold grade_documents
    rw [hdocs]
    rw [gradeDocsGo_spec caps s.question (fun _ => gs) [d]
      (by
        intro x hx
        rw [List.mem_singleton] at hx
        subst hx
        exact hdoc) [] "No"]
    cases hy : lowerStr gs == "yes" <;>
      simp [List.filter_cons, List.all_cons, hy]
  · unfold grade_generation_v_documents_and_question
    rw [hhalS]
    simp only [loads, getItem_singleton]
    rw [if_neg (by decide : ¬ JVal.str "Yes" = JVal.str "yes")]
    split_ifs <;> rfl
  · unfold grade_generation_v_documents_and_question
    rw [hhalT]
    simp only [loads, getItem_singleton]
    rw [hansT]
    simp only [if_true, getItem_singleton]
    rw [if_neg (by decide : ¬ JVal.str "Yes" = JVal.str "yes")]
    split_ifs <;> rfl

/-- Witness backends for C10: the document grader and the usefulness
grader answer Yes, the groundedness grader answers Yes for the first
state and yes for the second. -/
def capsStrict : Caps where
  retriever := fun _ => []
  webSearchTool := fun _ => []
  llmFree := fun _ => ""
  llmStructured := fun sys up =>
    if sys = DOC_GRADER_INSTRUCTIONS then .obj [("binary_score", JVal.str "Yes")]
    else if sys = ANSWER_GRADER_INSTRUCTIONS then .obj [("binary_score", JVal.str "Yes")]
    else if up = HALLUCINATION_GRADER_PROMPT_format
        (format_docs [{ page_content := "a" }]) "gen1"
      then .obj [("binary_score", JVal.str "Yes")]
    else .obj [("binary_score", JVal.str "yes")]

def sStrict : GraphState where
  question := "q"
  generation := "gen1"
  web_search := "No"
  max_retries := 3
  answers := 0
  loop_step := 0
  documents := [{ page_content := "a" }]

def tStrict : GraphState where
  question := "q"
  generation := "gen2"
  web_search := "No"
  max_retries := 3
  answers := 0
  loop_step := 0
  documents := []

/-- Witness for C10: a Yes groundedness grade is treated as failing
(not supported), and a Yes usefulness grade after an exact yes
groundedness grade is treated as failing (not useful), while the same
Yes keeps a document in the document-grading layer. -/
theorem grading_strictness_differs_witness :
    grade_documents capsStrict sStrict = .ok
      { question := none
        generation := none
        web_search := some "No"
        max_retries := none
        answers := none
        loop_step := none
        documents := some [{ page_content := "a" }] } ∧
    grade_generation_v_documents_and_question capsStrict sStrict = .ok "not supported" ∧
    grade_generation_v_documents_and_question capsStrict tStrict = .ok "not useful" := by
  have h := grading_strictness_differs capsStrict sStrict tStrict "Yes"
    { page_content := "a" } rfl rfl rfl rfl rfl
  exact ⟨h.1.trans (by rfl), h.2.1.trans (by rfl), h.2.2.trans (by rfl)⟩

end CyberRAGLLM
